import Mathlib

/-!
Verification development for the PayFlow processor-priority contract
(src/contracts/processor_priority.py, an Algorand PyTeal program), together
with the deployment schema constants from
src/contracts/deploy_funded_contract.py.

The global key-value store is modelled by its logical view: one record per
processor index (key derivation via Itob is collision-free, so the per-index
field sets are disjoint), plus the processor_count entry.  TEAL uint64 values
are modelled as Nat; TEAL arithmetic never wraps (it aborts on overflow, and
no claim in scope exercises an overflowing input).  Application arguments are
byte strings; an argument is either a selector string or an 8-byte big-endian
integer, modelled by the two-sorted ArgVal (the selector literals compared by
the program are 6, 18 and 22 bytes long, so the two sorts can never compare
equal, and Btoi of an up-to-8-byte string is its big-endian value while Btoi
of a longer string aborts).

Transaction rejection — whether by an Assert failure, by an out-of-range
access to Txn.application_args (TEAL txna ApplicationArgs i fails when i is
past the end of the array; PyTeal And and Cond evaluate their condition
expressions strictly, so the second Cond condition already reads args[0]), or
by the final Reject() — discards every pending write, so a rejected call is
modelled as none and the ledger keeps the input state.
-/

/-! ## Definitions -/

/-- One processor's logical record: the eleven per-index global-state fields
declared in the contract docstring and written by initialize_processors. -/
structure Processor where
  name : String
  enabled : Nat
  total_transactions : Nat
  successful_transactions : Nat
  total_amount : Nat
  avg_processing_time : Nat
  first_activated : Nat
  monthly_transactions : Nat
  monthly_amount : Nat
  last_updated : Nat
  calculated_priority : Nat

/-- The global state: the processor_count entry plus the per-index records.
Indices never written hold the globalGet default (zeros / empty name). -/
structure GlobalState where
  processor_count : Nat
  procs : Nat → Processor

/-- globalGet of an absent key returns the zero value. -/
def emptyProcessor : Processor :=
  { name := ""
    enabled := 0
    total_transactions := 0
    successful_transactions := 0
    total_amount := 0
    avg_processing_time := 0
    first_activated := 0
    monthly_transactions := 0
    monthly_amount := 0
    last_updated := 0
    calculated_priority := 0 }

/-- The empty store a fresh application starts from. -/
def emptyState : GlobalState :=
  { processor_count := 0, procs := fun _ => emptyProcessor }

/-- App.globalPut on the field set of one index: replace that index's record. -/
def putProc (s : GlobalState) (i : Nat) (p : Processor) : GlobalState :=
  { s with procs := fun j => if j = i then p else s.procs j }

/-- An application argument: a byte string that is either a selector string or
the 8-byte big-endian encoding of a uint64. -/
inductive ArgVal where
  | str (s : String)
  | int (n : Nat)
deriving DecidableEq

/-- Btoi: big-endian value of a byte string of at most 8 bytes; aborts on a
longer string.  On an 8-byte integer encoding it recovers the integer. -/
def btoi : ArgVal → Option Nat
  | ArgVal.int n => some n
  | ArgVal.str s =>
      if s.toUTF8.size ≤ 8 then
        some (s.toUTF8.toList.foldl (fun a b => a * 256 + b.toNat) 0)
      else none

/-- Transaction OnCompletion values. -/
inductive OnCompletion where
  | NoOp
  | OptIn
  | CloseOut
  | ClearState
  | UpdateApplication
  | DeleteApplication
deriving DecidableEq

/-- The parts of a transaction the approval program inspects. -/
structure Txn where
  application_id : Nat
  on_completion : OnCompletion
  application_args : List ArgVal

/-- initialize_processors (contract lines 77-122): set processor_count to 3
and write the full default record for Stripe, PayPal and Square, with
first_activated = last_updated = the creation timestamp and
calculated_priority = the index. -/
def initialize_processors (s : GlobalState) (now : Nat) : GlobalState :=
  let s0 : GlobalState := { s with processor_count := 3 }
  let s1 := putProc s0 1
    { name := "Stripe", enabled := 1, total_transactions := 0
      successful_transactions := 0, total_amount := 0
      avg_processing_time := 150, first_activated := now
      monthly_transactions := 0, monthly_amount := 0
      last_updated := now, calculated_priority := 1 }
  let s2 := putProc s1 2
    { name := "PayPal", enabled := 1, total_transactions := 0
      successful_transactions := 0, total_amount := 0
      avg_processing_time := 200, first_activated := now
      monthly_transactions := 0, monthly_amount := 0
      last_updated := now, calculated_priority := 2 }
  putProc s2 3
    { name := "Square", enabled := 1, total_transactions := 0
      successful_transactions := 0, total_amount := 0
      avg_processing_time := 180, first_activated := now
      monthly_transactions := 0, monthly_amount := 0
      last_updated := now, calculated_priority := 3 }

/-- The seven globalPut calls of update_performance_metrics (contract lines
156-164), in program order.  PyTeal re-emits an expression tree at every use
site, so each put's value re-reads the store as of that point in the Seq: in
particular the avg put (line 159) evaluates current_avg_time *
current_total_txns + time over new_total_txns AFTER line 156 already
committed total+1, so both globalGet(total) reads inside it return the
incremented total.  The other puts read only keys not yet written in this
Seq, so they see the pre-update values. -/
def update_writes (s : GlobalState)
    (processor_index amount_cents was_successful processing_time_ms now :
      Nat) : GlobalState :=
  let s1 := putProc s processor_index
    { s.procs processor_index with
      total_transactions :=
        (s.procs processor_index).total_transactions + 1 }
  let s2 := putProc s1 processor_index
    { s1.procs processor_index with
      successful_transactions :=
        if was_successful = 1 then
          (s1.procs processor_index).successful_transactions + 1
        else (s1.procs processor_index).successful_transactions }
  let s3 := putProc s2 processor_index
    { s2.procs processor_index with
      total_amount :=
        (s2.procs processor_index).total_amount + amount_cents }
  let s4 := putProc s3 processor_index
    { s3.procs processor_index with
      avg_processing_time :=
        ((s3.procs processor_index).avg_processing_time *
          (s3.procs processor_index).total_transactions +
          processing_time_ms) /
          ((s3.procs processor_index).total_transactions + 1) }
  let s5 := putProc s4 processor_index
    { s4.procs processor_index with
      monthly_transactions :=
        (s4.procs processor_index).monthly_transactions + 1 }
  let s6 := putProc s5 processor_index
    { s5.procs processor_index with
      monthly_amount :=
        (s5.procs processor_index).monthly_amount + amount_cents }
  putProc s6 processor_index
    { s6.procs processor_index with last_updated := now }

/-- update_performance_metrics (contract lines 126-165): decode args 1-4,
assert 1 <= index <= processor_count, amount >= 0, time >= 0,
succeeded in {0,1} (the asserts run before any write and read the
untouched store), then run the Seq of puts in update_writes. -/
def update_performance_metrics (s : GlobalState) (txn : Txn) (now : Nat) :
    Option GlobalState :=
  match txn.application_args[1]?, txn.application_args[2]?,
        txn.application_args[3]?, txn.application_args[4]? with
  | some a1, some a2, some a3, some a4 =>
    match btoi a1, btoi a2, btoi a3, btoi a4 with
    | some processor_index, some amount_cents, some was_successful,
      some processing_time_ms =>
      if 1 ≤ processor_index ∧ processor_index ≤ s.processor_count ∧
         0 ≤ amount_cents ∧ 0 ≤ processing_time_ms ∧
         (was_successful = 0 ∨ was_successful = 1) then
        some (update_writes s processor_index amount_cents was_successful
          processing_time_ms now)
      else none
    | _, _, _, _ => none
  | _, _, _, _ => none

/-- calculate_processor_score (contract lines 168-205): the pure composite
score of processor `processor_index` in state `s` at time `now`.  The
monthly_amount read mirrors the source's unused read of that key. -/
def calculate_processor_score (s : GlobalState) (processor_index : Nat)
    (now : Nat) : Nat :=
  let total_txns := (s.procs processor_index).total_transactions
  let successful_txns := (s.procs processor_index).successful_transactions
  let monthly_txns := (s.procs processor_index).monthly_transactions
  let _monthly_amount := (s.procs processor_index).monthly_amount
  let avg_time := (s.procs processor_index).avg_processing_time
  let first_activated := (s.procs processor_index).first_activated
  let success_rate :=
    if total_txns > 0 then successful_txns * 10000 / total_txns else 9500
  let tenure_days :=
    if now > first_activated then (now - first_activated) / 86400 else 0
  let tenure_score := if tenure_days > 365 then 365 else tenure_days
  let volume_score := if monthly_txns > 1000 then 1000 else monthly_txns
  let speed_score :=
    if avg_time < 50 then 1000
    else if avg_time < 100 then 800
    else if avg_time < 200 then 600
    else if avg_time < 500 then 400
    else 200
  (success_rate * 40 + volume_score * 25 + speed_score * 20 +
    tenure_score * 15) / 100

/-- globalPut on just the calculated_priority field of index `i`. -/
def setPriority (s : GlobalState) (i v : Nat) : GlobalState :=
  putProc s i { s.procs i with calculated_priority := v }

/-- One processor's priority assignment in recalculate_all_priorities:
rank 1 if its score is >= both others, rank 2 if >= the first comparator and
< the second, rank 3 otherwise.  Scores are read from the current state. -/
def priority_rank (s : GlobalState) (now p q r : Nat) : Nat :=
  let sp := calculate_processor_score s p now
  let sq := calculate_processor_score s q now
  let sr := calculate_processor_score s r now
  if sp ≥ sq ∧ sp ≥ sr then 1
  else if sp ≥ sq ∧ sp < sr then 2
  else 3

/-- recalculate_all_priorities (contract lines 208-239): the three priority
writes happen in sequence, each If re-reading the store (the score
subroutine reads no priority field, so the values are in fact stable). -/
def recalculate_all_priorities (s : GlobalState) (now : Nat) : GlobalState :=
  let s1 := setPriority s 1 (priority_rank s now 1 2 3)
  let s2 := setPriority s1 2 (priority_rank s1 now 2 1 3)
  setPriority s2 3 (priority_rank s2 now 3 1 2)

/-- toggle_processor (contract lines 242-252): decode args 1-2, assert
1 <= index <= processor_count and enabled in {0,1}, write the enabled flag. -/
def toggle_processor (s : GlobalState) (txn : Txn) : Option GlobalState :=
  match txn.application_args[1]?, txn.application_args[2]? with
  | some a1, some a2 =>
    match btoi a1, btoi a2 with
    | some processor_index, some enabled =>
      if 1 ≤ processor_index ∧ processor_index ≤ s.processor_count ∧
         (enabled = 0 ∨ enabled = 1) then
        some (putProc s processor_index
          { s.procs processor_index with enabled := enabled })
      else none
    | _, _ => none
  | _, _ => none

/-- approval_program (contract lines 254-298), as the Cond chain: creation,
the three selector branches gated by now < 2000000000, the NoOp fall-through
Approve, and the final Reject.  Branches 2-4 evaluate args[0] strictly, so a
call without arguments fails there (array access out of range). -/
def approval_program (s : GlobalState) (txn : Txn) (now : Nat) :
    Option GlobalState :=
  if txn.application_id = 0 then
    some (initialize_processors s now)
  else
    match txn.application_args[0]? with
    | none => none
    | some arg0 =>
      if txn.on_completion = OnCompletion.NoOp ∧
         arg0 = ArgVal.str "update_performance" ∧ now < 2000000000 then
        match update_performance_metrics s txn now with
        | some s1 => some (recalculate_all_priorities s1 now)
        | none => none
      else if txn.on_completion = OnCompletion.NoOp ∧
              arg0 = ArgVal.str "recalculate_priorities" ∧
              now < 2000000000 then
        some (recalculate_all_priorities s now)
      else if txn.on_completion = OnCompletion.NoOp ∧
              arg0 = ArgVal.str "toggle" ∧ now < 2000000000 then
        toggle_processor s txn
      else if txn.on_completion = OnCompletion.NoOp then
        some s
      else
        none

/-- The ledger-level outcome of one call: the committed state and the
accept/reject bit.  A rejected call leaves the state untouched. -/
def execute (s : GlobalState) (txn : Txn) (now : Nat) : GlobalState × Bool :=
  match approval_program s txn now with
  | some s1 => (s1, true)
  | none => (s, false)

/-- The committed states: the post-create state, and everything an accepted
call can produce from a committed state. -/
inductive Reachable : GlobalState → Prop
  | created (now : Nat) : Reachable (initialize_processors emptyState now)
  | step (s : GlobalState) (txn : Txn) (now : Nat) (s1 : GlobalState) :
      Reachable s → approval_program s txn now = some s1 → Reachable s1

/-- An update_performance call: selector plus four big-endian integer args. -/
def updateTxn (aid i a c t : Nat) : Txn :=
  { application_id := aid
    on_completion := OnCompletion.NoOp
    application_args := [ArgVal.str "update_performance", ArgVal.int i,
      ArgVal.int a, ArgVal.int c, ArgVal.int t] }

/-- A recalculate_priorities call. -/
def recalcTxn (aid : Nat) : Txn :=
  { application_id := aid
    on_completion := OnCompletion.NoOp
    application_args := [ArgVal.str "recalculate_priorities"] }

/-- A toggle call: selector plus two big-endian integer args. -/
def toggleTxn (aid i e : Nat) : Txn :=
  { application_id := aid
    on_completion := OnCompletion.NoOp
    application_args := [ArgVal.str "toggle", ArgVal.int i, ArgVal.int e] }

/-- Invariant carried through every committed state: the count entry stays 3,
every record keeps successes bounded by totals, and the priorities of the
three live indices stay in 1..3. -/
def StateInv (s : GlobalState) : Prop :=
  s.processor_count = 3 ∧
  ∀ i, (s.procs i).successful_transactions ≤
      (s.procs i).total_transactions ∧
    (1 ≤ i → i ≤ 3 → 1 ≤ (s.procs i).calculated_priority ∧
      (s.procs i).calculated_priority ≤ 3)

/-- The byte sequence of an ASCII string literal (every key fragment and name
in the contract is ASCII, where UTF-8 bytes coincide with code points). -/
def strBytes (s : String) : List Nat := s.data.map Char.toNat

/-- Itob: the fixed 8-byte big-endian encoding of a uint64, as used in every
key derivation Concat(Bytes("processor_"), Itob(index), suffix). -/
def itob (n : Nat) : List Nat :=
  [n / 72057594037927936 % 256, n / 281474976710656 % 256,
   n / 1099511627776 % 256, n / 4294967296 % 256,
   n / 16777216 % 256, n / 65536 % 256,
   n / 256 % 256, n % 256]

/-- The store key of one field of one processor index. -/
def processorFieldKey (index : Nat) (suffix : String) : List Nat :=
  strBytes "processor_" ++ itob index ++ strBytes suffix

/-- A stored value is tagged as a uint64 or as a byte string. -/
inductive TealValue where
  | uint (n : Nat)
  | bytes (b : List Nat)

def TealValue.isUint : TealValue → Bool
  | TealValue.uint _ => true
  | TealValue.bytes _ => false

/-- The 34 globalPut calls issued by initialize_processors at creation time
(contract lines 77-122), in program order: the count entry plus eleven
fields for each of the three processors. -/
def initialize_writes (now : Nat) : List (List Nat × TealValue) :=
  [(strBytes "processor_count", TealValue.uint 3),
   (processorFieldKey 1 "_name", TealValue.bytes (strBytes "Stripe")),
   (processorFieldKey 1 "_enabled", TealValue.uint 1),
   (processorFieldKey 1 "_total_transactions", TealValue.uint 0),
   (processorFieldKey 1 "_successful_transactions", TealValue.uint 0),
   (processorFieldKey 1 "_total_amount", TealValue.uint 0),
   (processorFieldKey 1 "_avg_processing_time", TealValue.uint 150),
   (processorFieldKey 1 "_first_activated", TealValue.uint now),
   (processorFieldKey 1 "_monthly_transactions", TealValue.uint 0),
   (processorFieldKey 1 "_monthly_amount", TealValue.uint 0),
   (processorFieldKey 1 "_last_updated", TealValue.uint now),
   (processorFieldKey 1 "_calculated_priority", TealValue.uint 1),
   (processorFieldKey 2 "_name", TealValue.bytes (strBytes "PayPal")),
   (processorFieldKey 2 "_enabled", TealValue.uint 1),
   (processorFieldKey 2 "_total_transactions", TealValue.uint 0),
   (processorFieldKey 2 "_successful_transactions", TealValue.uint 0),
   (processorFieldKey 2 "_total_amount", TealValue.uint 0),
   (processorFieldKey 2 "_avg_processing_time", TealValue.uint 200),
   (processorFieldKey 2 "_first_activated", TealValue.uint now),
   (processorFieldKey 2 "_monthly_transactions", TealValue.uint 0),
   (processorFieldKey 2 "_monthly_amount", TealValue.uint 0),
   (processorFieldKey 2 "_last_updated", TealValue.uint now),
   (processorFieldKey 2 "_calculated_priority", TealValue.uint 2),
   (processorFieldKey 3 "_name", TealValue.bytes (strBytes "Square")),
   (processorFieldKey 3 "_enabled", TealValue.uint 1),
   (processorFieldKey 3 "_total_transactions", TealValue.uint 0),
   (processorFieldKey 3 "_successful_transactions", TealValue.uint 0),
   (processorFieldKey 3 "_total_amount", TealValue.uint 0),
   (processorFieldKey 3 "_avg_processing_time", TealValue.uint 180),
   (processorFieldKey 3 "_first_activated", TealValue.uint now),
   (processorFieldKey 3 "_monthly_transactions", TealValue.uint 0),
   (processorFieldKey 3 "_monthly_amount", TealValue.uint 0),
   (processorFieldKey 3 "_last_updated", TealValue.uint now),
   (processorFieldKey 3 "_calculated_priority", TealValue.uint 3)]

/-- The creation-time keys; they do not depend on the creation timestamp. -/
def initialize_keys : List (List Nat) := (initialize_writes 0).map Prod.fst

/-- Modelled from the spec: the AVM global-state schema check is not part of
src/ (only the declared schema constants are, in the deployment scripts).
Per spec sections 3, 4.1 and 6, a capacity limit (maximum integer slots,
maximum byte-slice slots) is declared at creation and a write set exceeding
either maximum is a fatal capacity failure.  This predicate says the write
set fits the declared schema. -/
def schemaAllows (num_uints num_byte_slices : Nat)
    (writes : List (List Nat × TealValue)) : Bool :=
  decide ((writes.countP fun kv => kv.2.isUint) ≤ num_uints) &&
    decide ((writes.countP fun kv => !kv.2.isUint) ≤ num_byte_slices)

/-- The composite-score formula in the words of the spec (section 4.4) and of
claim C1: basis-point success rate with a 9500 default, tenure capped via
min at 365 days, volume capped via min at 1000, the five speed brackets, and
the weighted floor division by 100. -/
def claim_score (p : Processor) (now : Nat) : Nat :=
  let success_rate :=
    if 0 < p.total_transactions then
      p.successful_transactions * 10000 / p.total_transactions
    else 9500
  let tenure_score :=
    if p.first_activated < now then
      min ((now - p.first_activated) / 86400) 365
    else 0
  let volume_score := min p.monthly_transactions 1000
  let speed_score :=
    if p.avg_processing_time < 50 then 1000
    else if p.avg_processing_time < 100 then 800
    else if p.avg_processing_time < 200 then 600
    else if p.avg_processing_time < 500 then 400
    else 200
  (success_rate * 40 + volume_score * 25 + speed_score * 20 +
    tenure_score * 15) / 100

/-- The record of claim C1's worked example: one transaction, one success,
one monthly transaction, 120 ms average, zero days of tenure. -/
def exampleRecord : Processor :=
  { name := "Example"
    enabled := 1
    total_transactions := 1
    successful_transactions := 1
    total_amount := 0
    avg_processing_time := 120
    first_activated := 0
    monthly_transactions := 1
    monthly_amount := 0
    last_updated := 0
    calculated_priority := 1 }

/-- Two records that agree on every field except possibly the enabled flag. -/
def agreesExceptEnabled (p q : Processor) : Prop :=
  p.name = q.name ∧
  p.total_transactions = q.total_transactions ∧
  p.successful_transactions = q.successful_transactions ∧
  p.total_amount = q.total_amount ∧
  p.avg_processing_time = q.avg_processing_time ∧
  p.first_activated = q.first_activated ∧
  p.monthly_transactions = q.monthly_transactions ∧
  p.monthly_amount = q.monthly_amount ∧
  p.last_updated = q.last_updated ∧
  p.calculated_priority = q.calculated_priority

/-- Two states that differ at most in enabled flags. -/
def enabledVariant (sa sb : GlobalState) : Prop :=
  sa.processor_count = sb.processor_count ∧
  ∀ i, agreesExceptEnabled (sa.procs i) (sb.procs i)

/-- The post-create state after one recalculate_priorities call at time 0:
processors 1 and 3 tie at score 3920 against 3880 for processor 2. -/
def tieState : GlobalState :=
  recalculate_all_priorities (initialize_processors emptyState 0) 0

/-- The post-create state, used as the base of claim C10's witness. -/
def c10Base : GlobalState := initialize_processors emptyState 0

/-- The post-create state with processor 1 disabled, exactly the store a
toggle(1, 0) call commits. -/
def c10Disabled : GlobalState :=
  putProc c10Base 1 { c10Base.procs 1 with enabled := 0 }

/-! ## Supporting lemmas -/

theorem putProc_procs (s : GlobalState) (i : Nat) (p : Processor) (j : Nat) :
    (putProc s i p).procs j = if j = i then p else s.procs j := rfl

theorem putProc_count (s : GlobalState) (i : Nat) (p : Processor) :
    (putProc s i p).processor_count = s.processor_count := rfl

theorem setPriority_procs (s : GlobalState) (i v j : Nat) :
    (setPriority s i v).procs j =
      if j = i then { s.procs i with calculated_priority := v }
      else s.procs j := rfl

theorem setPriority_count (s : GlobalState) (i v : Nat) :
    (setPriority s i v).processor_count = s.processor_count := rfl

/-- The score subroutine reads only the metric fields of the chosen record. -/
theorem score_only_metrics {s t : GlobalState} {i j : Nat} (now : Nat)
    (h1 : (s.procs i).total_transactions = (t.procs j).total_transactions)
    (h2 : (s.procs i).successful_transactions =
      (t.procs j).successful_transactions)
    (h3 : (s.procs i).monthly_transactions = (t.procs j).monthly_transactions)
    (h4 : (s.procs i).avg_processing_time = (t.procs j).avg_processing_time)
    (h5 : (s.procs i).first_activated = (t.procs j).first_activated) :
    calculate_processor_score s i now = calculate_processor_score t j now := by
  simp only [calculate_processor_score, h1, h2, h3, h4, h5]

/-- Writing a priority field never changes a score. -/
theorem score_setPriority (s : GlobalState) (i v j now : Nat) :
    calculate_processor_score (setPriority s i v) j now =
      calculate_processor_score s j now := by
  apply score_only_metrics <;>
    · rw [setPriority_procs]
      split
      · next h => subst h; rfl
      · rfl

theorem priority_rank_setPriority (s : GlobalState) (i v now p q r : Nat) :
    priority_rank (setPriority s i v) now p q r =
      priority_rank s now p q r := by
  simp only [priority_rank, score_setPriority]

/-- The three ranks in recalculate_all_priorities can all be read off the
entry state: the interleaved priority writes do not feed back into scores. -/
theorem recalc_eq (s : GlobalState) (now : Nat) :
    recalculate_all_priorities s now =
      setPriority
        (setPriority (setPriority s 1 (priority_rank s now 1 2 3))
          2 (priority_rank s now 2 1 3))
        3 (priority_rank s now 3 1 2) := by
  simp only [recalculate_all_priorities, priority_rank_setPriority]

theorem recalc_count (s : GlobalState) (now : Nat) :
    (recalculate_all_priorities s now).processor_count = s.processor_count :=
  rfl

theorem recalc_procs (s : GlobalState) (now j : Nat) :
    (recalculate_all_priorities s now).procs j =
      if j = 3 then
        { s.procs 3 with calculated_priority := priority_rank s now 3 1 2 }
      else if j = 2 then
        { s.procs 2 with calculated_priority := priority_rank s now 2 1 3 }
      else if j = 1 then
        { s.procs 1 with calculated_priority := priority_rank s now 1 2 3 }
      else s.procs j := by
  rw [recalc_eq]
  by_cases h3 : j = 3 <;> by_cases h2 : j = 2 <;> by_cases h1 : j = 1 <;>
    simp [setPriority_procs, h1, h2, h3]

theorem priority_rank_cases (s : GlobalState) (now p q r : Nat) :
    priority_rank s now p q r = 1 ∨ priority_rank s now p q r = 2 ∨
      priority_rank s now p q r = 3 := by
  simp only [priority_rank]
  split_ifs <;> simp

theorem stateExt {s t : GlobalState}
    (h1 : s.processor_count = t.processor_count)
    (h2 : ∀ j, s.procs j = t.procs j) : s = t := by
  cases s
  cases t
  simp only [GlobalState.mk.injEq]
  exact ⟨h1, funext h2⟩

/-- Net effect of the update Seq: one record replacement in which every
field except the average reads its pre-update value, while the average
divides avg*(total+1) + time by total+2, because the total put has already
committed when the average's reads re-evaluate. -/
theorem update_writes_collapse (s : GlobalState) (i a c t now : Nat) :
    update_writes s i a c t now =
      putProc s i
        { s.procs i with
          total_transactions := (s.procs i).total_transactions + 1
          successful_transactions :=
            if c = 1 then (s.procs i).successful_transactions + 1
            else (s.procs i).successful_transactions
          total_amount := (s.procs i).total_amount + a
          avg_processing_time :=
            ((s.procs i).avg_processing_time *
              ((s.procs i).total_transactions + 1) + t) /
              ((s.procs i).total_transactions + 1 + 1)
          monthly_transactions := (s.procs i).monthly_transactions + 1
          monthly_amount := (s.procs i).monthly_amount + a
          last_updated := now } := by
  apply stateExt
  · rfl
  · intro j
    by_cases hj : j = i
    · subst hj
      simp [update_writes, putProc_procs]
    · simp [update_writes, putProc_procs, hj]

theorem update_on_int_args (s : GlobalState) (aid i a c t now : Nat) :
    update_performance_metrics s (updateTxn aid i a c t) now =
      if 1 ≤ i ∧ i ≤ s.processor_count ∧ 0 ≤ a ∧ 0 ≤ t ∧
         (c = 0 ∨ c = 1) then
        some (putProc s i
          { s.procs i with
            total_transactions := (s.procs i).total_transactions + 1
            successful_transactions :=
              if c = 1 then (s.procs i).successful_transactions + 1
              else (s.procs i).successful_transactions
            total_amount := (s.procs i).total_amount + a
            avg_processing_time :=
              ((s.procs i).avg_processing_time *
                ((s.procs i).total_transactions + 1) + t) /
                ((s.procs i).total_transactions + 1 + 1)
            monthly_transactions := (s.procs i).monthly_transactions + 1
            monthly_amount := (s.procs i).monthly_amount + a
            last_updated := now })
      else none := by
  have h0 : update_performance_metrics s (updateTxn aid i a c t) now =
      if 1 ≤ i ∧ i ≤ s.processor_count ∧ 0 ≤ a ∧ 0 ≤ t ∧
         (c = 0 ∨ c = 1) then
        some (update_writes s i a c t now)
      else none := rfl
  rw [h0, update_writes_collapse]

theorem toggle_on_int_args (s : GlobalState) (aid i e : Nat) :
    toggle_processor s (toggleTxn aid i e) =
      if 1 ≤ i ∧ i ≤ s.processor_count ∧ (e = 0 ∨ e = 1) then
        some (putProc s i { s.procs i with enabled := e })
      else none := rfl

theorem approval_update_sel (s : GlobalState) (aid now : Nat)
    (rest : List ArgVal) (haid : aid ≠ 0) (hnow : now < 2000000000) :
    approval_program s
        { application_id := aid, on_completion := OnCompletion.NoOp
          application_args := ArgVal.str "update_performance" :: rest } now =
      match update_performance_metrics s
          { application_id := aid, on_completion := OnCompletion.NoOp
            application_args := ArgVal.str "update_performance" :: rest }
          now with
      | some s1 => some (recalculate_all_priorities s1 now)
      | none => none := by
  unfold approval_program
  rw [if_neg haid]
  simp only [List.getElem?_cons_zero]
  rw [if_pos (show _ ∧ _ ∧ _ from by simp [hnow])]

theorem approval_recalc_sel (s : GlobalState) (aid now : Nat)
    (rest : List ArgVal) (haid : aid ≠ 0) (hnow : now < 2000000000) :
    approval_program s
        { application_id := aid, on_completion := OnCompletion.NoOp
          application_args := ArgVal.str "recalculate_priorities" :: rest }
        now =
      some (recalculate_all_priorities s now) := by
  unfold approval_program
  rw [if_neg haid]
  simp only [List.getElem?_cons_zero]
  rw [if_neg (by rintro ⟨-, h, -⟩; exact absurd h (by decide)),
    if_pos (show _ ∧ _ ∧ _ from by simp [hnow])]

theorem approval_toggle_sel (s : GlobalState) (aid now : Nat)
    (rest : List ArgVal) (haid : aid ≠ 0) (hnow : now < 2000000000) :
    approval_program s
        { application_id := aid, on_completion := OnCompletion.NoOp
          application_args := ArgVal.str "toggle" :: rest } now =
      toggle_processor s
        { application_id := aid, on_completion := OnCompletion.NoOp
          application_args := ArgVal.str "toggle" :: rest } := by
  unfold approval_program
  rw [if_neg haid]
  simp only [List.getElem?_cons_zero]
  rw [if_neg (by rintro ⟨-, h, -⟩; exact absurd h (by decide)),
    if_neg (by rintro ⟨-, h, -⟩; exact absurd h (by decide)),
    if_pos (show _ ∧ _ ∧ _ from by simp [hnow])]

/-- A NoOp call whose first argument matches no selector branch (or whose
timestamp disarms all three) is approved unchanged by the fall-through. -/
theorem approval_noop_fallthrough (s : GlobalState) (aid now : Nat)
    (args : List ArgVal) (a0 : ArgVal) (haid : aid ≠ 0)
    (ha0 : args[0]? = some a0)
    (h1 : ¬(a0 = ArgVal.str "update_performance" ∧ now < 2000000000))
    (h2 : ¬(a0 = ArgVal.str "recalculate_priorities" ∧ now < 2000000000))
    (h3 : ¬(a0 = ArgVal.str "toggle" ∧ now < 2000000000)) :
    approval_program s
        { application_id := aid, on_completion := OnCompletion.NoOp
          application_args := args } now = some s := by
  unfold approval_program
  rw [if_neg haid]
  simp only [ha0]
  rw [if_neg (by rintro ⟨-, x, y⟩; exact h1 ⟨x, y⟩),
    if_neg (by rintro ⟨-, x, y⟩; exact h2 ⟨x, y⟩),
    if_neg (by rintro ⟨-, x, y⟩; exact h3 ⟨x, y⟩)]
  rfl

/-- A call with an empty argument array fails at the evaluation of the second
Cond condition (txna ApplicationArgs 0 is out of range). -/
theorem approval_no_args (s : GlobalState) (aid now : Nat)
    (oc : OnCompletion) (haid : aid ≠ 0) :
    approval_program s
        { application_id := aid, on_completion := oc
          application_args := [] } now = none := by
  unfold approval_program
  rw [if_neg haid]
  rfl

theorem update_cases {s : GlobalState} {txn : Txn} {now : Nat}
    {s1 : GlobalState}
    (h : update_performance_metrics s txn now = some s1) :
    ∃ i a c t, 1 ≤ i ∧ i ≤ s.processor_count ∧ (c = 0 ∨ c = 1) ∧
      s1 = putProc s i
        { s.procs i with
          total_transactions := (s.procs i).total_transactions + 1
          successful_transactions :=
            if c = 1 then (s.procs i).successful_transactions + 1
            else (s.procs i).successful_transactions
          total_amount := (s.procs i).total_amount + a
          avg_processing_time :=
            ((s.procs i).avg_processing_time *
              ((s.procs i).total_transactions + 1) + t) /
              ((s.procs i).total_transactions + 1 + 1)
          monthly_transactions := (s.procs i).monthly_transactions + 1
          monthly_amount := (s.procs i).monthly_amount + a
          last_updated := now } := by
  unfold update_performance_metrics at h
  split at h
  all_goals try exact Option.noConfusion h
  split at h
  all_goals try exact Option.noConfusion h
  rename_i i a c t hq1 hq2 hq3 hq4
  split at h
  · rename_i hg
    refine ⟨i, a, c, t, hg.1, hg.2.1, hg.2.2.2.2, ?_⟩
    exact (Option.some.inj h).symm.trans (update_writes_collapse s i a c t now)
  · exact Option.noConfusion h

theorem toggle_cases {s : GlobalState} {txn : Txn} {s1 : GlobalState}
    (h : toggle_processor s txn = some s1) :
    ∃ i e, 1 ≤ i ∧ i ≤ s.processor_count ∧ (e = 0 ∨ e = 1) ∧
      s1 = putProc s i { s.procs i with enabled := e } := by
  unfold toggle_processor at h
  split at h
  all_goals try exact Option.noConfusion h
  split at h
  all_goals try exact Option.noConfusion h
  rename_i i e hq1 hq2
  split at h
  · rename_i hg
    exact ⟨i, e, hg.1, hg.2.1, hg.2.2, (Option.some.inj h).symm⟩
  · exact Option.noConfusion h

theorem approval_cases {s : GlobalState} {txn : Txn} {now : Nat}
    {s1 : GlobalState} (h : approval_program s txn now = some s1) :
    s1 = initialize_processors s now ∨
    (∃ m, update_performance_metrics s txn now = some m ∧
      s1 = recalculate_all_priorities m now) ∨
    s1 = recalculate_all_priorities s now ∨
    toggle_processor s txn = some s1 ∨
    s1 = s := by
  unfold approval_program at h
  split at h
  · exact Or.inl (Option.some.inj h).symm
  · split at h
    · exact Option.noConfusion h
    · split at h
      · split at h
        · rename_i m hm
          exact Or.inr (Or.inl ⟨m, hm, (Option.some.inj h).symm⟩)
        · exact Option.noConfusion h
      · split at h
        · exact Or.inr (Or.inr (Or.inl (Option.some.inj h).symm))
        · split at h
          · exact Or.inr (Or.inr (Or.inr (Or.inl h)))
          · split at h
            · exact Or.inr (Or.inr (Or.inr (Or.inr
                (Option.some.inj h).symm)))
            · exact Option.noConfusion h

theorem init_inv (s : GlobalState) (now : Nat)
    (h : ∀ i, (s.procs i).successful_transactions ≤
      (s.procs i).total_transactions) :
    StateInv (initialize_processors s now) := by
  refine ⟨rfl, fun i => ?_⟩
  show ((initialize_processors s now).procs i).successful_transactions ≤ _ ∧ _
  unfold initialize_processors
  simp only [putProc_procs]
  by_cases h3 : i = 3 <;> by_cases h2 : i = 2 <;> by_cases h1 : i = 1 <;>
    simp [h1, h2, h3]
  · exact ⟨h i, by omega⟩

theorem update_inv {s : GlobalState} {txn : Txn} {now : Nat}
    {s1 : GlobalState} (h : update_performance_metrics s txn now = some s1)
    (hs : StateInv s) : StateInv s1 := by
  obtain ⟨i, a, c, t, -, -, -, rfl⟩ := update_cases h
  refine ⟨(putProc_count ..).trans hs.1, fun j => ?_⟩
  rw [putProc_procs]
  split
  · next hj =>
    subst hj
    refine ⟨?_, fun ha hb => ?_⟩ <;> dsimp only
    · have h0 := (hs.2 j).1
      split <;> omega
    · exact (hs.2 j).2 ha hb
  · exact hs.2 j

theorem recalc_inv {s : GlobalState} {now : Nat} (hs : StateInv s) :
    StateInv (recalculate_all_priorities s now) := by
  refine ⟨(recalc_count s now).trans hs.1, fun j => ?_⟩
  rw [recalc_procs]
  split
  · refine ⟨?_, fun _ _ => ?_⟩ <;> dsimp only
    · exact (hs.2 3).1
    · rcases priority_rank_cases s now 3 1 2 with h | h | h <;> omega
  · split
    · refine ⟨?_, fun _ _ => ?_⟩ <;> dsimp only
      · exact (hs.2 2).1
      · rcases priority_rank_cases s now 2 1 3 with h | h | h <;> omega
    · split
      · refine ⟨?_, fun _ _ => ?_⟩ <;> dsimp only
        · exact (hs.2 1).1
        · rcases priority_rank_cases s now 1 2 3 with h | h | h <;> omega
      · exact hs.2 j

theorem toggle_inv {s : GlobalState} {txn : Txn} {s1 : GlobalState}
    (h : toggle_processor s txn = some s1) (hs : StateInv s) :
    StateInv s1 := by
  obtain ⟨i, e, -, -, -, rfl⟩ := toggle_cases h
  refine ⟨(putProc_count ..).trans hs.1, fun j => ?_⟩
  rw [putProc_procs]
  split
  · next hj =>
    subst hj
    refine ⟨?_, fun ha hb => ?_⟩ <;> dsimp only
    · exact (hs.2 j).1
    · exact (hs.2 j).2 ha hb
  · exact hs.2 j

/-- Every committed state satisfies the invariant. -/
theorem reachable_inv {s : GlobalState} (h : Reachable s) : StateInv s := by
  induction h with
  | created now => exact init_inv emptyState now (fun _ => Nat.le_refl 0)
  | step s txn now s1 _ happ ih =>
    rcases approval_cases happ with rfl | ⟨m, hm, rfl⟩ | rfl | ht | rfl
    · exact init_inv s now (fun i => (ih.2 i).1)
    · exact recalc_inv (update_inv hm ih)
    · exact recalc_inv ih
    · exact toggle_inv ht ih
    · exact ih

theorem initialize_writes_keys (now : Nat) :
    (initialize_writes now).map Prod.fst = initialize_keys := rfl

theorem schemaAllows_initialize_writes (now u b : Nat) :
    schemaAllows u b (initialize_writes now) =
      (decide (31 ≤ u) && decide (3 ≤ b)) := by
  unfold schemaAllows
  rw [show ((initialize_writes now).countP fun kv => kv.2.isUint) = 31
      from rfl,
    show ((initialize_writes now).countP fun kv => !kv.2.isUint) = 3
      from rfl]

theorem score_enabledVariant {sa sb : GlobalState}
    (h : enabledVariant sa sb) (i now : Nat) :
    calculate_processor_score sa i now =
      calculate_processor_score sb i now := by
  obtain ⟨-, ht, hsc, -, hav, hfa, hmt, -, -, -⟩ := h.2 i
  exact score_only_metrics now ht hsc hmt hav hfa

theorem rank_enabledVariant {sa sb : GlobalState}
    (h : enabledVariant sa sb) (now p q r : Nat) :
    priority_rank sa now p q r = priority_rank sb now p q r := by
  simp only [priority_rank, score_enabledVariant h]

theorem enabledVariant_setPriority {sa sb : GlobalState}
    (h : enabledVariant sa sb) (i v : Nat) :
    enabledVariant (setPriority sa i v) (setPriority sb i v) := by
  refine ⟨h.1, fun j => ?_⟩
  rw [setPriority_procs, setPriority_procs]
  by_cases hj : j = i
  · rw [if_pos hj, if_pos hj]
    obtain ⟨h1, h2, h3, h4, h5, h6, h7, h8, h9, -⟩ := h.2 i
    exact ⟨h1, h2, h3, h4, h5, h6, h7, h8, h9, rfl⟩
  · rw [if_neg hj, if_neg hj]
    exact h.2 j

theorem recalc_enabledVariant {sa sb : GlobalState}
    (h : enabledVariant sa sb) (now : Nat) :
    enabledVariant (recalculate_all_priorities sa now)
      (recalculate_all_priorities sb now) := by
  rw [recalc_eq, recalc_eq,
    rank_enabledVariant h now 1 2 3, rank_enabledVariant h now 2 1 3,
    rank_enabledVariant h now 3 1 2]
  exact enabledVariant_setPriority
    (enabledVariant_setPriority (enabledVariant_setPriority h 1 _) 2 _) 3 _

theorem update_enabledVariant {sa sb : GlobalState}
    (h : enabledVariant sa sb) (aid i a c t now : Nat) :
    (update_performance_metrics sa (updateTxn aid i a c t) now = none ↔
      update_performance_metrics sb (updateTxn aid i a c t) now = none) ∧
    ∀ sa1 sb1,
      update_performance_metrics sa (updateTxn aid i a c t) now = some sa1 →
      update_performance_metrics sb (updateTxn aid i a c t) now = some sb1 →
      enabledVariant sa1 sb1 := by
  rw [update_on_int_args, update_on_int_args]
  have hcnt := h.1
  by_cases hg : 1 ≤ i ∧ i ≤ sa.processor_count ∧ 0 ≤ a ∧ 0 ≤ t ∧
      (c = 0 ∨ c = 1)
  · have hg2 : 1 ≤ i ∧ i ≤ sb.processor_count ∧ 0 ≤ a ∧ 0 ≤ t ∧
        (c = 0 ∨ c = 1) := by rw [← hcnt]; exact hg
    rw [if_pos hg, if_pos hg2]
    refine ⟨by simp, fun sa1 sb1 ha hb => ?_⟩
    rw [← Option.some.inj ha, ← Option.some.inj hb]
    refine ⟨hcnt, fun j => ?_⟩
    rw [putProc_procs, putProc_procs]
    by_cases hj : j = i
    · rw [if_pos hj, if_pos hj]
      obtain ⟨h1, h2, h3, h4, h5, h6, h7, h8, h9, h10⟩ := h.2 i
      exact ⟨h1, by rw [h2], by rw [h3], by rw [h4], by rw [h5, h2],
        by rw [h6], by rw [h7], by rw [h8], rfl, by rw [h10]⟩
    · rw [if_neg hj, if_neg hj]
      exact h.2 j
  · have hg2 : ¬(1 ≤ i ∧ i ≤ sb.processor_count ∧ 0 ≤ a ∧ 0 ≤ t ∧
        (c = 0 ∨ c = 1)) := by rw [← hcnt]; exact hg
    rw [if_neg hg, if_neg hg2]
    exact ⟨by simp, fun sa1 sb1 ha _ => Option.noConfusion ha⟩

theorem approval_updateTxn (s : GlobalState) (aid i a c t now : Nat)
    (haid : aid ≠ 0) (hnow : now < 2000000000) :
    approval_program s (updateTxn aid i a c t) now =
      if 1 ≤ i ∧ i ≤ s.processor_count ∧ 0 ≤ a ∧ 0 ≤ t ∧
         (c = 0 ∨ c = 1) then
        some (recalculate_all_priorities
          (putProc s i
            { s.procs i with
              total_transactions := (s.procs i).total_transactions + 1
              successful_transactions :=
                if c = 1 then (s.procs i).successful_transactions + 1
                else (s.procs i).successful_transactions
              total_amount := (s.procs i).total_amount + a
              avg_processing_time :=
                ((s.procs i).avg_processing_time *
                  ((s.procs i).total_transactions + 1) + t) /
                  ((s.procs i).total_transactions + 1 + 1)
              monthly_transactions := (s.procs i).monthly_transactions + 1
              monthly_amount := (s.procs i).monthly_amount + a
              last_updated := now }) now)
      else none := by
  have h1 : approval_program s (updateTxn aid i a c t) now =
      match update_performance_metrics s (updateTxn aid i a c t) now with
      | some s2 => some (recalculate_all_priorities s2 now)
      | none => none :=
    approval_update_sel s aid now
      [ArgVal.int i, ArgVal.int a, ArgVal.int c, ArgVal.int t] haid hnow
  rw [h1, update_on_int_args]
  split_ifs <;> rfl

theorem approval_toggleTxn (s : GlobalState) (aid i e now : Nat)
    (haid : aid ≠ 0) (hnow : now < 2000000000) :
    approval_program s (toggleTxn aid i e) now =
      if 1 ≤ i ∧ i ≤ s.processor_count ∧ (e = 0 ∨ e = 1) then
        some (putProc s i { s.procs i with enabled := e })
      else none := by
  have h1 : approval_program s (toggleTxn aid i e) now =
      toggle_processor s (toggleTxn aid i e) :=
    approval_toggle_sel s aid now [ArgVal.int i, ArgVal.int e] haid hnow
  rw [h1, toggle_on_int_args]

/-! ## Claim theorems -/

/-- Claim C1: for every processor record state and every timestamp,
calculate_processor_score returns exactly the weighted floor formula of the
spec (success rate in basis points with 9500 default, volume capped at 1000,
the five speed brackets, tenure days capped at 365), and the worked example
record with one successful transaction, one monthly transaction, 120 ms
average and zero tenure scores 4120. -/
theorem claim_C1_score_formula :
    (∀ (s : GlobalState) (i now : Nat),
      calculate_processor_score s i now = claim_score (s.procs i) now) ∧
    claim_score exampleRecord 0 = 4120 ∧
    calculate_processor_score (putProc emptyState 1 exampleRecord) 1 0 =
      4120 := by
  refine ⟨fun s i now => ?_, by decide, by decide⟩
  have hmin : ∀ m : Nat, (if m > 1000 then 1000 else m) = min m 1000 := by
    intro m; rw [Nat.min_def]; split_ifs <;> omega
  have htn : ∀ fa d : Nat,
      (if (if fa < now then d else 0) > 365 then 365
       else (if fa < now then d else 0)) =
      (if fa < now then min d 365 else 0) := by
    intro fa d; rw [Nat.min_def]; split_ifs <;> omega
  simp only [calculate_processor_score, claim_score]
  rw [hmin, htn]

/-- Claim C2, code bug: the claim (with spec sections 4.3 and 8) says the
running average becomes floor((avg*total + time_ms)/(total+1)) from the
record's pre-update values — 100 then 200 on the spec's example — and the
source's own naming (current_total_txns, read before any write) shows that
is the intent; but the compiled program re-evaluates globalGet(total) inside
the average put after the total put has committed total+1, so from the
post-create record (avg 150, total 0) it commits avg 125 after a 100 ms
sample and avg 183 after a further 300 ms sample, while the claimed rule
yields 100 and then 212 from the same committed states.  The remaining
seven fields follow the claim's formulas. -/
theorem claim_C2_code_divergence :
    ((execute (initialize_processors emptyState 0) (updateTxn 1 1 0 1 100)
        5).1.procs 1).avg_processing_time = 125 ∧
    ((execute (initialize_processors emptyState 0) (updateTxn 1 1 0 1 100)
        5).1.procs 1).total_transactions = 1 ∧
    ((execute (execute (initialize_processors emptyState 0)
        (updateTxn 1 1 0 1 100) 5).1 (updateTxn 1 1 0 1 300)
        6).1.procs 1).avg_processing_time = 183 ∧
    ((execute (execute (initialize_processors emptyState 0)
        (updateTxn 1 1 0 1 100) 5).1 (updateTxn 1 1 0 1 300)
        6).1.procs 1).total_transactions = 2 ∧
    (150 * 0 + 100) / (0 + 1) = 100 ∧
    (125 * 1 + 300) / (1 + 1) = 212 ∧
    (125 : Nat) ≠ 100 ∧ (183 : Nat) ≠ 212 ∧ (183 : Nat) ≠ 200 :=
  ⟨by decide, by decide, by decide, by decide, by decide, by decide,
   by decide, by decide, by decide⟩

/-- Counterexample to claim C3 as stated: a toggle call with the invalid
argument enabled = 2, submitted at the expiry timestamp, is accepted by the
NoOp fall-through (the claim says every such operation is rejected); the
state is still unchanged. -/
theorem claim_C3_cex :
    execute (initialize_processors emptyState 0) (toggleTxn 1 1 2)
        2000000000 =
      (initialize_processors emptyState 0, true) := rfl

/-- Claim C3 as amended: for every state, a record_performance or toggle call
with an invalid argument (index < 1, index > processor_count, succeeded not
in 0..1, or enabled not in 0..1) is rejected with the state identical to the
input when submitted before the expiry epoch — the violated Assert aborts
before any write; at or after the expiry epoch the call is instead accepted
by the NoOp fall-through, still writing no field of any processor. -/
theorem claim_C3_invalid_args :
    ∀ (s : GlobalState) (aid i a c t e now : Nat), aid ≠ 0 →
      ((i < 1 ∨ s.processor_count < i ∨ (c ≠ 0 ∧ c ≠ 1)) →
        (now < 2000000000 →
          execute s (updateTxn aid i a c t) now = (s, false)) ∧
        (2000000000 ≤ now →
          execute s (updateTxn aid i a c t) now = (s, true))) ∧
      ((i < 1 ∨ s.processor_count < i ∨ (e ≠ 0 ∧ e ≠ 1)) →
        (now < 2000000000 →
          execute s (toggleTxn aid i e) now = (s, false)) ∧
        (2000000000 ≤ now →
          execute s (toggleTxn aid i e) now = (s, true))) := by
  intro s aid i a c t e now haid
  constructor
  · intro hviol
    constructor
    · intro hnow
      have hng : ¬(1 ≤ i ∧ i ≤ s.processor_count ∧ 0 ≤ a ∧ 0 ≤ t ∧
          (c = 0 ∨ c = 1)) := by omega
      unfold execute
      rw [approval_updateTxn s aid i a c t now haid hnow, if_neg hng]
    · intro hnow
      have happ : approval_program s (updateTxn aid i a c t) now = some s :=
        approval_noop_fallthrough s aid now
          [ArgVal.str "update_performance", ArgVal.int i, ArgVal.int a,
            ArgVal.int c, ArgVal.int t]
          (ArgVal.str "update_performance") haid List.getElem?_cons_zero
          (by rintro ⟨-, hlt⟩; omega)
          (by rintro ⟨hx, -⟩; exact absurd hx (by decide))
          (by rintro ⟨hx, -⟩; exact absurd hx (by decide))
      unfold execute
      rw [happ]
  · intro hviol
    constructor
    · intro hnow
      have hng : ¬(1 ≤ i ∧ i ≤ s.processor_count ∧ (e = 0 ∨ e = 1)) := by
        omega
      unfold execute
      rw [approval_toggleTxn s aid i e now haid hnow, if_neg hng]
    · intro hnow
      have happ : approval_program s (toggleTxn aid i e) now = some s :=
        approval_noop_fallthrough s aid now
          [ArgVal.str "toggle", ArgVal.int i, ArgVal.int e]
          (ArgVal.str "toggle") haid List.getElem?_cons_zero
          (by rintro ⟨hx, -⟩; exact absurd hx (by decide))
          (by rintro ⟨hx, -⟩; exact absurd hx (by decide))
          (by rintro ⟨-, hlt⟩; omega)
      unfold execute
      rw [happ]

/-- Witness for claim C3: a concrete invalid success flag and a concrete
invalid enabled flag, both rejected with the state unchanged before the
expiry epoch. -/
theorem claim_C3_witness :
    ((1 : Nat) ≠ 0 ∧ ((2 : Nat) ≠ 0 ∧ (2 : Nat) ≠ 1) ∧
      (100 : Nat) < 2000000000) ∧
    execute (initialize_processors emptyState 0) (updateTxn 1 1 0 2 0) 100 =
      (initialize_processors emptyState 0, false) ∧
    execute (initialize_processors emptyState 0) (toggleTxn 1 1 2) 100 =
      (initialize_processors emptyState 0, false) :=
  ⟨⟨by decide, ⟨by decide, by decide⟩, by decide⟩,
   ((claim_C3_invalid_args _ 1 1 0 2 0 2 100 (by decide)).1
     (Or.inr (Or.inr ⟨by decide, by decide⟩))).1 (by decide),
   ((claim_C3_invalid_args _ 1 1 0 2 0 2 100 (by decide)).2
     (Or.inr (Or.inr ⟨by decide, by decide⟩))).1 (by decide)⟩

/-- Counterexample to claim C4 as stated: a NoOp call with the unknown
selector get_processor_metrics is accepted (approved by the NoOp
fall-through) with no state change, where the claim says the dispatcher
rejects it. -/
theorem claim_C4_cex :
    execute (initialize_processors emptyState 0)
      { application_id := 1, on_completion := OnCompletion.NoOp
        application_args := [ArgVal.str "get_processor_metrics"] } 5 =
      (initialize_processors emptyState 0, true) := rfl

/-- Claim C4 as amended: a NoOp call whose selector string is none of
update_performance, recalculate_priorities and toggle is accepted by the
NoOp fall-through branch with the state unchanged (not rejected). -/
theorem claim_C4_unknown_selector :
    ∀ (s : GlobalState) (aid now : Nat) (sel : String) (rest : List ArgVal),
      aid ≠ 0 → sel ≠ "update_performance" →
      sel ≠ "recalculate_priorities" → sel ≠ "toggle" →
      execute s
        { application_id := aid, on_completion := OnCompletion.NoOp
          application_args := ArgVal.str sel :: rest } now = (s, true) := by
  intro s aid now sel rest haid h1 h2 h3
  have happ := approval_noop_fallthrough s aid now (ArgVal.str sel :: rest)
    (ArgVal.str sel) haid List.getElem?_cons_zero
    (by rintro ⟨hx, -⟩; exact h1 (ArgVal.str.inj hx))
    (by rintro ⟨hx, -⟩; exact h2 (ArgVal.str.inj hx))
    (by rintro ⟨hx, -⟩; exact h3 (ArgVal.str.inj hx))
  unfold execute
  rw [happ]

/-- Witness for claim C4: the unknown selector of the counterexample,
accepted with the state unchanged at another timestamp. -/
theorem claim_C4_witness :
    (("get_processor_metrics" : String) ≠ "update_performance" ∧
      ("get_processor_metrics" : String) ≠ "recalculate_priorities" ∧
      ("get_processor_metrics" : String) ≠ "toggle") ∧
    execute (initialize_processors emptyState 0)
      { application_id := 1, on_completion := OnCompletion.NoOp
        application_args := [ArgVal.str "get_processor_metrics"] } 9 =
      (initialize_processors emptyState 0, true) :=
  ⟨⟨by decide, by decide, by decide⟩,
   claim_C4_unknown_selector _ 1 9 "get_processor_metrics" [] (by decide)
     (by decide) (by decide) (by decide)⟩

/-- Counterexample to claim C5 as stated: an update_performance call at a
timestamp past the expiry epoch is accepted, not rejected (first conjunct),
and the argument-less read form is rejected even before the expiry epoch
because evaluating the second Cond condition reads the missing args[0]
(second conjunct), so reads do not succeed at every timestamp. -/
theorem claim_C5_cex :
    (execute (initialize_processors emptyState 0) (updateTxn 1 2 7 1 50)
        2000000001).2 = true ∧
    (execute (initialize_processors emptyState 0)
        { application_id := 1, on_completion := OnCompletion.NoOp
          application_args := [] } 0).2 = false :=
  ⟨rfl, rfl⟩

/-- Claim C5 as amended: a mutating call (update_performance,
recalculate_priorities or toggle selector) submitted at or after the expiry
epoch 2000000000 is accepted by the NoOp fall-through with no state change
rather than rejected, and the argument-less read form is rejected at every
timestamp by the out-of-range argument access, also with no state change. -/
theorem claim_C5_expiry :
    (∀ (s : GlobalState) (aid now : Nat) (sel : String) (rest : List ArgVal),
      aid ≠ 0 → 2000000000 ≤ now →
      (sel = "update_performance" ∨ sel = "recalculate_priorities" ∨
        sel = "toggle") →
      execute s
        { application_id := aid, on_completion := OnCompletion.NoOp
          application_args := ArgVal.str sel :: rest } now = (s, true)) ∧
    (∀ (s : GlobalState) (aid now : Nat) (oc : OnCompletion), aid ≠ 0 →
      execute s
        { application_id := aid, on_completion := oc
          application_args := [] } now = (s, false)) := by
  constructor
  · intro s aid now sel rest haid hnow _
    have happ := approval_noop_fallthrough s aid now (ArgVal.str sel :: rest)
      (ArgVal.str sel) haid List.getElem?_cons_zero
      (by rintro ⟨-, hlt⟩; omega)
      (by rintro ⟨-, hlt⟩; omega)
      (by rintro ⟨-, hlt⟩; omega)
    unfold execute
    rw [happ]
  · intro s aid now oc haid
    unfold execute
    rw [approval_no_args s aid now oc haid]

/-- Witness for claim C5: a concrete mutating call at the expiry epoch,
accepted unchanged, and a concrete argument-less call, rejected. -/
theorem claim_C5_witness :
    ((1 : Nat) ≠ 0 ∧ (2000000000 : Nat) ≤ 2000000000) ∧
    execute (initialize_processors emptyState 0) (updateTxn 1 1 5 1 100)
        2000000000 = (initialize_processors emptyState 0, true) ∧
    execute (initialize_processors emptyState 0)
      { application_id := 1, on_completion := OnCompletion.NoOp
        application_args := [] } 3 =
      (initialize_processors emptyState 0, false) :=
  ⟨⟨by decide, by decide⟩,
   claim_C5_expiry.1 _ 1 2000000000 "update_performance"
     [ArgVal.int 1, ArgVal.int 5, ArgVal.int 1, ArgVal.int 100] (by decide)
     (by decide) (Or.inl rfl),
   claim_C5_expiry.2 _ 1 3 OnCompletion.NoOp (by decide)⟩

/-- Claim C6: in every committed state reachable from creation, every
processor index in 1..processor_count has successful_transactions bounded by
total_transactions. -/
theorem claim_C6_success_le_total (s : GlobalState) (h : Reachable s)
    (i : Nat) (h1 : 1 ≤ i) (h2 : i ≤ s.processor_count) :
    (s.procs i).successful_transactions ≤ (s.procs i).total_transactions :=
  ((reachable_inv h).2 i).1

/-- Witness for claim C6: the invariant read off the post-create state at
index 1. -/
theorem claim_C6_witness :
    (Reachable (initialize_processors emptyState 0) ∧
      1 ≤ (initialize_processors emptyState 0).processor_count) ∧
    ((initialize_processors emptyState 0).procs 1).successful_transactions ≤
      ((initialize_processors emptyState 0).procs 1).total_transactions :=
  ⟨⟨Reachable.created 0, by decide⟩,
   claim_C6_success_le_total _ (Reachable.created 0) 1 (by decide)
     (by decide)⟩

/-- Claim C7: in every committed state reachable from creation, every
processor index in 1..processor_count has calculated_priority in
1..processor_count (processor_count stays 3, so the range is 1..3). -/
theorem claim_C7_priority_range (s : GlobalState) (h : Reachable s)
    (i : Nat) (h1 : 1 ≤ i) (h2 : i ≤ s.processor_count) :
    1 ≤ (s.procs i).calculated_priority ∧
      (s.procs i).calculated_priority ≤ s.processor_count := by
  have hv := reachable_inv h
  have h3 : i ≤ 3 := by rw [hv.1] at h2; exact h2
  have h4 := (hv.2 i).2 h1 h3
  exact ⟨h4.1, by rw [hv.1]; exact h4.2⟩

/-- Witness for claim C7: the invariant read off the post-create state at
index 2. -/
theorem claim_C7_witness :
    (Reachable (initialize_processors emptyState 0) ∧
      1 ≤ (initialize_processors emptyState 0).processor_count) ∧
    1 ≤ ((initialize_processors emptyState 0).procs 2).calculated_priority ∧
    ((initialize_processors emptyState 0).procs 2).calculated_priority ≤
      (initialize_processors emptyState 0).processor_count :=
  ⟨⟨Reachable.created 0, by decide⟩,
   claim_C7_priority_range _ (Reachable.created 0) 2 (by decide) (by decide)⟩

/-- Claim C8: there is a reachable committed state — the post-create state,
in which processors 1 and 3 have equal scores — where recalculate_priorities
assigns priority 1 to both processors 1 and 3, priority 3 to processor 2,
and no processor receives priority 2, so the assignment is not a bijection
onto 1..3. -/
theorem claim_C8_tie_breaks_bijection :
    Reachable tieState ∧
    (tieState.procs 1).calculated_priority =
      (tieState.procs 3).calculated_priority ∧
    (tieState.procs 1).calculated_priority = 1 ∧
    (tieState.procs 2).calculated_priority = 3 ∧
    (tieState.procs 3).calculated_priority = 1 ∧
    (tieState.procs 1).calculated_priority ≠ 2 ∧
    (tieState.procs 2).calculated_priority ≠ 2 ∧
    (tieState.procs 3).calculated_priority ≠ 2 ∧
    calculate_processor_score (initialize_processors emptyState 0) 1 0 =
      calculate_processor_score (initialize_processors emptyState 0) 3 0 := by
  refine ⟨?_, by decide, by decide, by decide, by decide, by decide,
    by decide, by decide, by decide⟩
  exact Reachable.step _ (recalcTxn 1) 0 _ (Reachable.created 0)
    (approval_recalc_sel _ 1 0 [] (by decide) (by decide))

/-- Claim C9: creation writes exactly 34 = 1 + 3*11 store entries under
pairwise-distinct keys, 31 of them uint64 values and 3 byte-string values;
any schema with fewer than 31 integer slots or fewer than 3 byte-slice slots
(such as the deployment scripts' 20 integer slots) is exceeded at creation,
and any schema with fewer than 34 slots in total fails at creation under the
spec-modelled capacity check. -/
theorem claim_C9_capacity :
    ∀ (now u b : Nat),
      (initialize_writes now).length = 1 + 3 * 11 ∧
      ((initialize_writes now).map Prod.fst).Nodup ∧
      ((initialize_writes now).countP fun kv => kv.2.isUint) = 31 ∧
      ((initialize_writes now).countP fun kv => !kv.2.isUint) = 3 ∧
      schemaAllows 20 20 (initialize_writes now) = false ∧
      ((u < 31 ∨ b < 3) → schemaAllows u b (initialize_writes now) = false) ∧
      (u + b < 1 + 3 * 11 →
        schemaAllows u b (initialize_writes now) = false) := by
  intro now u b
  refine ⟨rfl, ?_, rfl, rfl, rfl, ?_, ?_⟩
  · rw [initialize_writes_keys]
    decide
  · intro h
    rw [schemaAllows_initialize_writes]
    rcases h with h | h
    · rw [decide_eq_false (by omega : ¬(31 ≤ u)), Bool.false_and]
    · rw [decide_eq_false (by omega : ¬(3 ≤ b)), Bool.and_false]
  · intro h
    rw [schemaAllows_initialize_writes]
    rcases (by omega : u < 31 ∨ b < 3) with h2 | h2
    · rw [decide_eq_false (by omega : ¬(31 ≤ u)), Bool.false_and]
    · rw [decide_eq_false (by omega : ¬(3 ≤ b)), Bool.and_false]

/-- Witness for claim C9: the deployment schema of 20 integer slots, and a
schema of 33 total slots, both refused. -/
theorem claim_C9_witness :
    ((20 : Nat) < 31 ∨ (20 : Nat) < 3) ∧ (20 : Nat) + 13 < 1 + 3 * 11 ∧
    schemaAllows 20 20 (initialize_writes 0) = false ∧
    schemaAllows 20 13 (initialize_writes 0) = false :=
  ⟨Or.inl (by decide), by decide,
   (claim_C9_capacity 0 20 20).2.2.2.2.2.1 (Or.inl (by decide)),
   (claim_C9_capacity 0 20 13).2.2.2.2.2.2 (by decide)⟩

/-- Claim C10: the enabled flag feeds into no computation other than
toggle's own write — for any two states that differ only in enabled flags,
every score is identical, recalculation assigns identical
calculated_priority values everywhere, and a record_performance with the
same encoded arguments is accepted in one state exactly when it is accepted
in the other, with the resulting states again differing only in enabled
flags; in particular a disabled processor still accepts performance records
and still participates in ranking. -/
theorem claim_C10_enabled_noninterference :
    ∀ (sa sb : GlobalState) (now : Nat), enabledVariant sa sb →
      (∀ i, calculate_processor_score sa i now =
        calculate_processor_score sb i now) ∧
      (∀ i, ((recalculate_all_priorities sa now).procs i).calculated_priority
        = ((recalculate_all_priorities sb now).procs i).calculated_priority)
      ∧ (∀ aid i a c t,
        ((update_performance_metrics sa (updateTxn aid i a c t) now).isSome ↔
          (update_performance_metrics sb (updateTxn aid i a c t) now).isSome)
        ∧ ∀ sa1 sb1,
          update_performance_metrics sa (updateTxn aid i a c t) now =
            some sa1 →
          update_performance_metrics sb (updateTxn aid i a c t) now =
            some sb1 →
          enabledVariant sa1 sb1) := by
  intro sa sb now h
  refine ⟨fun i => score_enabledVariant h i now,
    fun i => ((recalc_enabledVariant h now).2 i).2.2.2.2.2.2.2.2.2,
    fun aid i a c t => ?_⟩
  have hu := update_enabledVariant h aid i a c t now
  refine ⟨?_, hu.2⟩
  rw [Option.isSome_iff_ne_none, Option.isSome_iff_ne_none]
  exact not_congr hu.1

/-- Witness for claim C10: the post-create state against the same state with
processor 1 disabled — same score, same recalculated priority, and the
disabled processor still accepts a performance record. -/
theorem claim_C10_witness :
    enabledVariant c10Base c10Disabled ∧
    (c10Disabled.procs 1).enabled = 0 ∧
    calculate_processor_score c10Base 1 0 =
      calculate_processor_score c10Disabled 1 0 ∧
    ((recalculate_all_priorities c10Base 0).procs 1).calculated_priority =
      ((recalculate_all_priorities c10Disabled 0).procs 1).calculated_priority
    ∧ (update_performance_metrics c10Disabled (updateTxn 1 1 5 1 100)
        0).isSome = true := by
  have hEV : enabledVariant c10Base c10Disabled := by
    refine ⟨rfl, fun i => ?_⟩
    show agreesExceptEnabled (c10Base.procs i)
      ((putProc c10Base 1 _).procs i)
    rw [putProc_procs]
    by_cases hi : i = 1
    · rw [if_pos hi, hi]
      exact ⟨rfl, rfl, rfl, rfl, rfl, rfl, rfl, rfl, rfl, rfl⟩
    · rw [if_neg hi]
      exact ⟨rfl, rfl, rfl, rfl, rfl, rfl, rfl, rfl, rfl, rfl⟩
  exact ⟨hEV, rfl,
    (claim_C10_enabled_noninterference c10Base c10Disabled 0 hEV).1 1,
    (claim_C10_enabled_noninterference c10Base c10Disabled 0 hEV).2.1 1,
    by decide⟩
